import Mathlib

/-!
Verification of the Course/Enrollment core of the SimpleMicroservices
FastAPI application (src/main.py, src/models/course.py,
src/models/enrollment.py).

The four in-memory stores (Python dicts keyed by UUID) are modelled as
association lists over `Nat` keys; UUIDs are abstracted to `Nat`, with
uuid4 freshness expressed as explicit hypotheses on the generated key.
Dates and datetimes are abstracted to `Nat` tick values supplied by the
caller (`now`), and `Decimal` amounts to `Int`.  Every endpoint is a
pure function from the current store state (and its request payload)
to the next state paired with either a result value or the
`HTTPException` the handler raises; an error is always paired with the
state as it stood at the moment of the raise.
-/

/-- FastAPI HTTPException as raised by the handlers: a status code and a
detail message. -/
structure HTTPException where
  status_code : Nat
  detail : String
deriving DecidableEq, Repr

/-- Enrollment status enumeration (models/enrollment.py, EnrollmentStatus). -/
inductive EnrollmentStatus where
  | pending
  | active
  | dropped
  | completed
  | withdrawn
deriving DecidableEq, Repr

/-- Modelled from the spec: src/models/person.py is not present in the
source tree.  The spec describes a Person as carrying a unique
human-readable university identifier (uni) besides name and contact
fields; the enrollment endpoints consult only `uni`, so only that field
is modelled. -/
structure Person where
  uni : String
deriving DecidableEq, Repr

/-- CourseCreate (models/course.py): the creation/replacement payload.
It carries every CourseBase field, including the client-suppliable `id`
(default_factory uuid4) and `current_enrollment` (default 0). -/
structure CourseCreate where
  id : Nat
  code : String
  title : String
  description : Option String := none
  credits : Int
  department : String
  instructor : Option String := none
  semester : String
  start_date : Option Nat := none
  end_date : Option Nat := none
  max_enrollment : Option Int := none
  current_enrollment : Int := 0
  tuition_fee : Option Int := none
  prerequisites : List String := []
  is_active : Bool := true
deriving DecidableEq, Repr

/-- CourseRead (models/course.py): the stored server representation;
CourseBase fields plus creation/update timestamps. -/
structure Course where
  id : Nat
  code : String
  title : String
  description : Option String := none
  credits : Int
  department : String
  instructor : Option String := none
  semester : String
  start_date : Option Nat := none
  end_date : Option Nat := none
  max_enrollment : Option Int := none
  current_enrollment : Int := 0
  tuition_fee : Option Int := none
  prerequisites : List String := []
  is_active : Bool := true
  created_at : Nat
  updated_at : Nat
deriving DecidableEq, Repr

/-- CourseUpdate (models/course.py): the PATCH payload.  Exactly the
fields the source model declares; in particular there is no `id` and no
`current_enrollment` field. -/
structure CourseUpdate where
  code : Option String := none
  title : Option String := none
  description : Option String := none
  credits : Option Int := none
  department : Option String := none
  instructor : Option String := none
  semester : Option String := none
  start_date : Option Nat := none
  end_date : Option Nat := none
  max_enrollment : Option Int := none
  tuition_fee : Option Int := none
  prerequisites : Option (List String) := none
  is_active : Option Bool := none
deriving DecidableEq, Repr

/-- EnrollmentCreate (models/enrollment.py): the creation/replacement
payload.  EnrollmentBase has no `id` field, so enrollment identifiers
are always server-generated. -/
structure EnrollmentCreate where
  student_uni : String
  course_id : Nat
  enrollment_date : Nat
  status : EnrollmentStatus := .pending
  grade : Option String := none
  credits_earned : Option Int := none
  tuition_paid : Option Int := none
  payment_date : Option Nat := none
  completion_date : Option Nat := none
  withdrawal_date : Option Nat := none
  notes : Option String := none
deriving DecidableEq, Repr

/-- EnrollmentRead (models/enrollment.py): the stored server
representation; base fields plus server-generated id and timestamps. -/
structure Enrollment where
  id : Nat
  student_uni : String
  course_id : Nat
  enrollment_date : Nat
  status : EnrollmentStatus := .pending
  grade : Option String := none
  credits_earned : Option Int := none
  tuition_paid : Option Int := none
  payment_date : Option Nat := none
  completion_date : Option Nat := none
  withdrawal_date : Option Nat := none
  notes : Option String := none
  created_at : Nat
  updated_at : Nat
deriving DecidableEq, Repr

/-- EnrollmentUpdate (models/enrollment.py): the PATCH payload; every
field optional, `none` meaning the field was not supplied
(model_dump with exclude_unset drops it).  Note the source model has no
`enrollment_date`, `id` or timestamp fields. -/
structure EnrollmentUpdate where
  student_uni : Option String := none
  course_id : Option Nat := none
  status : Option EnrollmentStatus := none
  grade : Option String := none
  credits_earned : Option Int := none
  tuition_paid : Option Int := none
  payment_date : Option Nat := none
  completion_date : Option Nat := none
  withdrawal_date : Option Nat := none
  notes : Option String := none
deriving DecidableEq, Repr

/-- Lookup in a Python dict modelled as an association list: the value
stored at the key (first matching entry). -/
def lookupD {α : Type} : List (Nat × α) → Nat → Option α
  | [], _ => none
  | p :: t, k => if p.1 = k then some p.2 else lookupD t k

/-- Python `k in d` membership test. -/
def containsD {α : Type} : List (Nat × α) → Nat → Bool
  | [], _ => false
  | p :: t, k => p.1 == k || containsD t k

/-- In-place overwrite of the entry stored at a key. -/
def replaceD {α : Type} : List (Nat × α) → Nat → α → List (Nat × α)
  | [], _, _ => []
  | p :: t, k, v => (if p.1 = k then (k, v) else p) :: replaceD t k v

/-- Python dict assignment `d[k] = v`: overwrite in place if the key is
present, otherwise append a new entry (insertion order preserved). -/
def insertD {α : Type} (l : List (Nat × α)) (k : Nat) (v : α) : List (Nat × α) :=
  if containsD l k then replaceD l k v else l ++ [(k, v)]

/-- Python dict deletion `del d[k]`: drop the entry with that key. -/
def eraseD {α : Type} : List (Nat × α) → Nat → List (Nat × α)
  | [], _ => []
  | p :: t, k => if p.1 = k then eraseD t k else p :: eraseD t k

/-- The process-wide in-memory stores of main.py (persons, courses,
enrollments; addresses are untouched by the verified endpoints and are
omitted). -/
structure AppState where
  persons : List (Nat × Person)
  courses : List (Nat × Course)
  enrollments : List (Nat × Enrollment)
deriving DecidableEq, Repr

/-- The empty stores the process starts with. -/
def initialState : AppState := ⟨[], [], []⟩

/-- Merge of one optional-valued field under pydantic
model_dump(exclude_unset): a supplied value overwrites, an omitted one
keeps the stored value. -/
def mergeOpt {α : Type} (new? : Option α) (old : Option α) : Option α :=
  match new? with
  | some a => some a
  | none => old

/-- CourseRead(**course.model_dump()): every payload field carried over
verbatim (including the payload `id` and `current_enrollment`), with
freshly generated timestamps. -/
def toCourseRead (course : CourseCreate) (now : Nat) : Course :=
  { id := course.id
    code := course.code
    title := course.title
    description := course.description
    credits := course.credits
    department := course.department
    instructor := course.instructor
    semester := course.semester
    start_date := course.start_date
    end_date := course.end_date
    max_enrollment := course.max_enrollment
    current_enrollment := course.current_enrollment
    tuition_fee := course.tuition_fee
    prerequisites := course.prerequisites
    is_active := course.is_active
    created_at := now
    updated_at := now }

/-- EnrollmentRead(**enrollment.model_dump()): payload fields carried
over, with the server-generated id and fresh timestamps. -/
def toEnrollmentRead (enrollment : EnrollmentCreate) (id now : Nat) : Enrollment :=
  { id := id
    student_uni := enrollment.student_uni
    course_id := enrollment.course_id
    enrollment_date := enrollment.enrollment_date
    status := enrollment.status
    grade := enrollment.grade
    credits_earned := enrollment.credits_earned
    tuition_paid := enrollment.tuition_paid
    payment_date := enrollment.payment_date
    completion_date := enrollment.completion_date
    withdrawal_date := enrollment.withdrawal_date
    notes := enrollment.notes
    created_at := now
    updated_at := now }

/-- stored.update(update.model_dump(exclude_unset=True)) for a Course:
only the fields present in CourseUpdate can change; `id`,
`current_enrollment` and the timestamps have no counterpart in the
update model and always keep their stored values. -/
def applyCourseUpdate (stored : Course) (update : CourseUpdate) : Course :=
  { stored with
    code := update.code.getD stored.code
    title := update.title.getD stored.title
    description := mergeOpt update.description stored.description
    credits := update.credits.getD stored.credits
    department := update.department.getD stored.department
    instructor := mergeOpt update.instructor stored.instructor
    semester := update.semester.getD stored.semester
    start_date := mergeOpt update.start_date stored.start_date
    end_date := mergeOpt update.end_date stored.end_date
    max_enrollment := mergeOpt update.max_enrollment stored.max_enrollment
    tuition_fee := mergeOpt update.tuition_fee stored.tuition_fee
    prerequisites := update.prerequisites.getD stored.prerequisites
    is_active := update.is_active.getD stored.is_active }

/-- stored.update(update.model_dump(exclude_unset=True)) for an
Enrollment: only the EnrollmentUpdate fields can change; id,
enrollment_date and timestamps keep their stored values. -/
def applyEnrollmentUpdate (stored : Enrollment) (update : EnrollmentUpdate) : Enrollment :=
  { stored with
    student_uni := update.student_uni.getD stored.student_uni
    course_id := update.course_id.getD stored.course_id
    status := update.status.getD stored.status
    grade := mergeOpt update.grade stored.grade
    credits_earned := mergeOpt update.credits_earned stored.credits_earned
    tuition_paid := mergeOpt update.tuition_paid stored.tuition_paid
    payment_date := mergeOpt update.payment_date stored.payment_date
    completion_date := mergeOpt update.completion_date stored.completion_date
    withdrawal_date := mergeOpt update.withdrawal_date stored.withdrawal_date
    notes := mergeOpt update.notes stored.notes }

/-- The student-existence check of create_enrollment (main.py line 248):
any stored Person whose uni equals the payload value. -/
def studentExists (s : AppState) (uni : String) : Bool :=
  s.persons.any (fun p => p.2.uni == uni)

/-- The capacity guard of create/replace enrollment (main.py lines 259
and 316): Python `course.max_enrollment and current >= max`; `and`
tests truthiness, so a numeric bound participates only when nonzero. -/
def capacityFull (course : Course) : Bool :=
  match course.max_enrollment with
  | none => false
  | some m => m != 0 && decide (course.current_enrollment ≥ m)

/-- The pydantic field constraints on CourseBase that matter here:
credits between 1 and 6, max_enrollment at least 1 when present,
current_enrollment nonnegative. -/
def courseWf (course : Course) : Bool :=
  decide (1 ≤ course.credits) && decide (course.credits ≤ 6) &&
  decide (0 ≤ course.current_enrollment) &&
  (match course.max_enrollment with
   | none => true
   | some m => decide (1 ≤ m))

/-- POST /courses (main.py create_course): stores CourseRead(**dump)
under its own id, with no duplicate-id check, and returns it. -/
def create_course (s : AppState) (course : CourseCreate) (now : Nat) :
    AppState × Course :=
  let course_read := toCourseRead course now
  ({ s with courses := insertD s.courses course_read.id course_read }, course_read)

/-- PUT /courses/{course_id} (main.py replace_course): 404 when the id
is absent, else stores CourseRead(id=course_id, **dump(exclude id)). -/
def replace_course (s : AppState) (course_id : Nat) (course : CourseCreate) (now : Nat) :
    AppState × Except HTTPException Course :=
  if containsD s.courses course_id then
    let cr := { toCourseRead course now with id := course_id }
    ({ s with courses := insertD s.courses course_id cr }, .ok cr)
  else (s, .error ⟨404, "Course not found"⟩)

/-- PATCH /courses/{course_id} (main.py update_course): 404 when the id
is absent, else merges the supplied fields over the stored record. -/
def update_course (s : AppState) (course_id : Nat) (update : CourseUpdate) :
    AppState × Except HTTPException Course :=
  match lookupD s.courses course_id with
  | none => (s, .error ⟨404, "Course not found"⟩)
  | some stored =>
    let merged := applyCourseUpdate stored update
    ({ s with courses := insertD s.courses course_id merged }, .ok merged)

/-- DELETE /courses/{course_id} (main.py delete_course). -/
def delete_course (s : AppState) (course_id : Nat) :
    AppState × Except HTTPException Unit :=
  if containsD s.courses course_id then
    ({ s with courses := eraseD s.courses course_id }, .ok ())
  else (s, .error ⟨404, "Course not found"⟩)

/-- POST /enrollments (main.py create_enrollment): validates student,
course existence, active flag and capacity in that order; on success
stores the new record under the freshly generated uuid4 key `freshId`
and writes back the referenced course with its counter incremented. -/
def create_enrollment (s : AppState) (enrollment : EnrollmentCreate) (freshId now : Nat) :
    AppState × Except HTTPException Enrollment :=
  if !(studentExists s enrollment.student_uni) then
    (s, .error ⟨400, "Student not found"⟩)
  else
    match lookupD s.courses enrollment.course_id with
    | none => (s, .error ⟨400, "Course not found"⟩)
    | some course =>
      if !course.is_active then (s, .error ⟨400, "Course is not active"⟩)
      else if capacityFull course then (s, .error ⟨400, "Course enrollment is full"⟩)
      else
        let enrollment_read := toEnrollmentRead enrollment freshId now
        let s1 := { s with enrollments := insertD s.enrollments freshId enrollment_read }
        let course2 := { course with current_enrollment := course.current_enrollment + 1 }
        ({ s1 with courses := insertD s1.courses enrollment.course_id course2 },
         .ok enrollment_read)

/-- PUT /enrollments/{enrollment_id} (main.py replace_enrollment):
validates record existence, then course existence, active flag and
capacity against the new payload; there is no student check and no
counter adjustment.  On success overwrites the record under the same
id. -/
def replace_enrollment (s : AppState) (enrollment_id : Nat) (enrollment : EnrollmentCreate)
    (now : Nat) : AppState × Except HTTPException Enrollment :=
  if !(containsD s.enrollments enrollment_id) then
    (s, .error ⟨404, "Enrollment not found"⟩)
  else
    match lookupD s.courses enrollment.course_id with
    | none => (s, .error ⟨400, "Course not found"⟩)
    | some course =>
      if !course.is_active then (s, .error ⟨400, "Course is not active"⟩)
      else if capacityFull course then (s, .error ⟨400, "Course enrollment is full"⟩)
      else
        let enrollment_read := toEnrollmentRead enrollment enrollment_id now
        ({ s with enrollments := insertD s.enrollments enrollment_id enrollment_read },
         .ok enrollment_read)

/-- PATCH /enrollments/{enrollment_id} (main.py update_enrollment):
404 when absent; when the payload supplies course_id it must resolve;
merges the supplied fields; no counter adjustment. -/
def update_enrollment (s : AppState) (enrollment_id : Nat) (update : EnrollmentUpdate) :
    AppState × Except HTTPException Enrollment :=
  if !(containsD s.enrollments enrollment_id) then
    (s, .error ⟨404, "Enrollment not found"⟩)
  else if (match update.course_id with
           | some cid => !(containsD s.courses cid)
           | none => false) then
    (s, .error ⟨400, "Course not found"⟩)
  else
    match lookupD s.enrollments enrollment_id with
    | none => (s, .error ⟨404, "Enrollment not found"⟩)
    | some stored =>
      let merged := applyEnrollmentUpdate stored update
      ({ s with enrollments := insertD s.enrollments enrollment_id merged }, .ok merged)

/-- The course-counter block of delete_enrollment (main.py lines
346-349): if the course still resolves, write it back with
current_enrollment = max(0, current_enrollment - 1). -/
def decrementCourseAt (courses : List (Nat × Course)) (cid : Nat) : List (Nat × Course) :=
  match lookupD courses cid with
  | some course =>
    insertD courses cid
      { course with current_enrollment := max 0 (course.current_enrollment - 1) }
  | none => courses

/-- DELETE /enrollments/{enrollment_id} (main.py delete_enrollment):
404 when absent; else decrements the still-resolving course's counter
(floored at zero) and removes the record. -/
def delete_enrollment (s : AppState) (enrollment_id : Nat) :
    AppState × Except HTTPException Unit :=
  match lookupD s.enrollments enrollment_id with
  | none => (s, .error ⟨404, "Enrollment not found"⟩)
  | some enrollment =>
    let s1 := { s with courses := decrementCourseAt s.courses enrollment.course_id }
    ({ s1 with enrollments := eraseD s1.enrollments enrollment_id }, .ok ())

/-- The validation chain of create_enrollment, in source order, with the
exception each failing check raises; `none` means all checks pass. -/
def createEnrollmentRejection (s : AppState) (enrollment : EnrollmentCreate) :
    Option HTTPException :=
  if !(studentExists s enrollment.student_uni) then some ⟨400, "Student not found"⟩
  else
    match lookupD s.courses enrollment.course_id with
    | none => some ⟨400, "Course not found"⟩
    | some course =>
      if !course.is_active then some ⟨400, "Course is not active"⟩
      else if capacityFull course then some ⟨400, "Course enrollment is full"⟩
      else none

/-- The validation chain of replace_enrollment, in source order; note it
never consults the persons store. -/
def replaceEnrollmentRejection (s : AppState) (enrollment_id : Nat)
    (enrollment : EnrollmentCreate) : Option HTTPException :=
  if !(containsD s.enrollments enrollment_id) then some ⟨404, "Enrollment not found"⟩
  else
    match lookupD s.courses enrollment.course_id with
    | none => some ⟨400, "Course not found"⟩
    | some course =>
      if !course.is_active then some ⟨400, "Course is not active"⟩
      else if capacityFull course then some ⟨400, "Course enrollment is full"⟩
      else none

/-- Capacity-exhaustion condition in the words of the spec: the Course
has a non-null max_enrollment and current_enrollment is at least it. -/
def specCapacityError (course : Course) : Bool :=
  match course.max_enrollment with
  | none => false
  | some m => decide (course.current_enrollment ≥ m)

/-! ### Association-list lemmas -/

theorem containsD_eq_false_iff {α : Type} (l : List (Nat × α)) (k : Nat) :
    containsD l k = false ↔ lookupD l k = none := by
  induction l with
  | nil => simp [containsD, lookupD]
  | cons p t ih =>
    by_cases h : p.1 = k <;> simp [containsD, lookupD, h, ih]

theorem lookupD_eq_none_of_not_containsD {α : Type} {l : List (Nat × α)} {k : Nat}
    (h : containsD l k = false) : lookupD l k = none :=
  (containsD_eq_false_iff l k).mp h

theorem containsD_eq_true_of_lookupD {α : Type} {l : List (Nat × α)} {k : Nat} {v : α}
    (h : lookupD l k = some v) : containsD l k = true := by
  by_contra hc
  rw [Bool.not_eq_true] at hc
  rw [(containsD_eq_false_iff l k).mp hc] at h
  exact Option.noConfusion h

theorem not_mem_keys_of_not_containsD {α : Type} {l : List (Nat × α)} {k : Nat}
    (h : containsD l k = false) : k ∉ l.map Prod.fst := by
  induction l with
  | nil => simp
  | cons p t ih =>
    simp only [containsD, Bool.or_eq_false_iff, beq_eq_false_iff_ne, ne_eq] at h
    intro hmem
    rcases List.mem_cons.mp hmem with hh | hh
    · exact h.1 hh.symm
    · exact absurd hh (ih h.2)

theorem containsD_eq_false_of_not_mem_keys {α : Type} {l : List (Nat × α)} {k : Nat}
    (h : k ∉ l.map Prod.fst) : containsD l k = false := by
  induction l with
  | nil => rfl
  | cons p t ih =>
    simp only [List.map_cons, List.mem_cons, not_or] at h
    have hp : p.1 ≠ k := fun hh => h.1 hh.symm
    simp [containsD, hp, ih h.2]

theorem lookupD_replaceD_self {α : Type} {l : List (Nat × α)} {k : Nat} (v : α)
    (h : containsD l k = true) : lookupD (replaceD l k v) k = some v := by
  induction l with
  | nil => simp [containsD] at h
  | cons p t ih =>
    by_cases hp : p.1 = k
    · simp [replaceD, lookupD, hp]
    · simp only [containsD, Bool.or_eq_true, beq_iff_eq, hp, false_or] at h
      simp [replaceD, lookupD, hp, ih h]

theorem lookupD_replaceD_ne {α : Type} (l : List (Nat × α)) (k k' : Nat) (v : α)
    (h : k' ≠ k) : lookupD (replaceD l k v) k' = lookupD l k' := by
  induction l with
  | nil => simp [replaceD]
  | cons p t ih =>
    by_cases hp : p.1 = k
    · rw [replaceD, if_pos hp, lookupD, if_neg (Ne.symm h), lookupD,
        if_neg (by rw [hp]; exact Ne.symm h), ih]
    · by_cases hq : p.1 = k'
      · rw [replaceD, if_neg hp, lookupD, if_pos hq, lookupD, if_pos hq]
      · rw [replaceD, if_neg hp, lookupD, if_neg hq, lookupD, if_neg hq, ih]

theorem lookupD_append_single_self {α : Type} {l : List (Nat × α)} {k : Nat} (v : α)
    (h : containsD l k = false) : lookupD (l ++ [(k, v)]) k = some v := by
  induction l with
  | nil => simp [lookupD]
  | cons p t ih =>
    simp only [containsD, Bool.or_eq_false_iff, beq_eq_false_iff_ne, ne_eq] at h
    simp only [List.cons_append, lookupD, h.1, if_false]
    exact ih h.2

theorem lookupD_append_single_ne {α : Type} (l : List (Nat × α)) (k k' : Nat) (v : α)
    (h : k' ≠ k) : lookupD (l ++ [(k, v)]) k' = lookupD l k' := by
  induction l with
  | nil => simp [lookupD, Ne.symm h]
  | cons p t ih =>
    by_cases hp : p.1 = k' <;> simp [lookupD, hp, ih]

theorem lookupD_insertD_self {α : Type} (l : List (Nat × α)) (k : Nat) (v : α) :
    lookupD (insertD l k v) k = some v := by
  unfold insertD
  by_cases hc : containsD l k = true
  · simp only [hc, if_true]
    exact lookupD_replaceD_self v hc
  · rw [Bool.not_eq_true] at hc
    simp only [hc, Bool.false_eq_true, if_false]
    exact lookupD_append_single_self v hc

theorem lookupD_insertD_ne {α : Type} (l : List (Nat × α)) (k k' : Nat) (v : α)
    (h : k' ≠ k) : lookupD (insertD l k v) k' = lookupD l k' := by
  unfold insertD
  by_cases hc : containsD l k = true
  · simp only [hc, if_true]
    exact lookupD_replaceD_ne l k k' v h
  · rw [Bool.not_eq_true] at hc
    simp only [hc, Bool.false_eq_true, if_false]
    exact lookupD_append_single_ne l k k' v h

theorem eraseD_eq_self_of_not_containsD {α : Type} {l : List (Nat × α)} {k : Nat}
    (h : containsD l k = false) : eraseD l k = l := by
  induction l with
  | nil => rfl
  | cons p t ih =>
    simp only [containsD, Bool.or_eq_false_iff, beq_eq_false_iff_ne, ne_eq] at h
    simp [eraseD, h.1, ih h.2]

theorem lookupD_eraseD_self {α : Type} (l : List (Nat × α)) (k : Nat) :
    lookupD (eraseD l k) k = none := by
  induction l with
  | nil => rfl
  | cons p t ih =>
    by_cases hp : p.1 = k <;> simp [eraseD, lookupD, hp, ih]

theorem lookupD_eraseD_ne {α : Type} (l : List (Nat × α)) (k k' : Nat)
    (h : k' ≠ k) : lookupD (eraseD l k) k' = lookupD l k' := by
  induction l with
  | nil => rfl
  | cons p t ih =>
    by_cases hp : p.1 = k
    · rw [eraseD, if_pos hp, lookupD, if_neg (by rw [hp]; exact Ne.symm h), ih]
    · by_cases hq : p.1 = k'
      · rw [eraseD, if_neg hp, lookupD, if_pos hq, lookupD, if_pos hq]
      · rw [eraseD, if_neg hp, lookupD, if_neg hq, lookupD, if_neg hq, ih]

theorem eraseD_sublist {α : Type} (l : List (Nat × α)) (k : Nat) :
    List.Sublist (eraseD l k) l := by
  induction l with
  | nil => simp [eraseD]
  | cons p t ih =>
    by_cases hp : p.1 = k
    · rw [eraseD, if_pos hp]
      exact ih.cons p
    · rw [eraseD, if_neg hp]
      exact ih.cons₂ p

theorem nodupKeys_eraseD {α : Type} {l : List (Nat × α)} (k : Nat)
    (hnd : (l.map Prod.fst).Nodup) : ((eraseD l k).map Prod.fst).Nodup :=
  List.Nodup.sublist ((eraseD_sublist l k).map Prod.fst) hnd

theorem nodupKeys_insertD_fresh {α : Type} {l : List (Nat × α)} {k : Nat} (v : α)
    (hnd : (l.map Prod.fst).Nodup) (h : containsD l k = false) :
    ((insertD l k v).map Prod.fst).Nodup := by
  unfold insertD
  simp only [h, Bool.false_eq_true, if_false]
  rw [List.map_append]
  refine List.Nodup.append hnd (by simp) ?_
  intro a ha hb
  simp only [List.map_cons, List.map_nil, List.mem_singleton] at hb
  subst hb
  exact not_mem_keys_of_not_containsD h ha

/-! ### Counting enrollments per course -/

/-- Number of stored enrollment records referencing course C. -/
def countC (C : Nat) (l : List (Nat × Enrollment)) : Nat :=
  (l.filter (fun p => p.2.course_id == C)).length

/-- Number of enrollments in the store referencing course C. -/
def countEnrFor (C : Nat) (s : AppState) : Nat := countC C s.enrollments

theorem countC_append_single (C : Nat) (l : List (Nat × Enrollment)) (k : Nat)
    (v : Enrollment) :
    countC C (l ++ [(k, v)]) = countC C l + (if v.course_id = C then 1 else 0) := by
  by_cases h : v.course_id = C <;> simp [countC, List.filter_append, h]

theorem countC_eraseD (C : Nat) {l : List (Nat × Enrollment)} {k : Nat} {v : Enrollment}
    (hnd : (l.map Prod.fst).Nodup) (h : lookupD l k = some v) :
    countC C l = countC C (eraseD l k) + (if v.course_id = C then 1 else 0) := by
  induction l with
  | nil => simp [lookupD] at h
  | cons p t ih =>
    simp only [List.map_cons, List.nodup_cons] at hnd
    by_cases hp : p.1 = k
    · have hv : v = p.2 := by
        simp only [lookupD, hp, if_true, Option.some.injEq] at h
        exact h.symm
      have hk : k ∉ t.map Prod.fst := by rw [← hp]; exact hnd.1
      have ht : eraseD t k = t :=
        eraseD_eq_self_of_not_containsD (containsD_eq_false_of_not_mem_keys hk)
      subst hv
      rw [eraseD, if_pos hp, ht]
      by_cases hc : p.2.course_id = C
      · simp [countC, List.filter_cons, hc]
      · simp [countC, List.filter_cons, hc]
    · have ht := ih hnd.2 (by simpa [lookupD, hp] using h)
      rw [eraseD, if_neg hp]
      by_cases hc : p.2.course_id = C <;>
        simp [countC, List.filter_cons, hc] at ht ⊢ <;> omega

theorem countC_pos (C : Nat) {l : List (Nat × Enrollment)} {k : Nat} {v : Enrollment}
    (h : lookupD l k = some v) (hC : v.course_id = C) : 1 ≤ countC C l := by
  induction l with
  | nil => simp [lookupD] at h
  | cons p t ih =>
    by_cases hp : p.1 = k
    · have hv : v = p.2 := by
        simp only [lookupD, hp, if_true, Option.some.injEq] at h
        exact h.symm
      simp [countC, List.filter_cons, ← hv, hC]
    · have := ih (by simpa [lookupD, hp] using h)
      by_cases hc : p.2.course_id = C
      · simp [countC, List.filter_cons, hc] at this ⊢
      · simp [countC, List.filter_cons, hc] at this ⊢
        exact this

/-! ### Shapes of the enrollment operations -/

theorem insertD_of_not_containsD {α : Type} {l : List (Nat × α)} {k : Nat} (v : α)
    (h : containsD l k = false) : insertD l k v = l ++ [(k, v)] := by
  unfold insertD
  rw [h]
  simp

theorem create_enrollment_ok_of_checks (s : AppState) (e : EnrollmentCreate)
    (freshId now : Nat) (course : Course)
    (hstu : studentExists s e.student_uni = true)
    (hcourse : lookupD s.courses e.course_id = some course)
    (hactive : course.is_active = true)
    (hcap : capacityFull course = false) :
    create_enrollment s e freshId now =
      ({ s with
         enrollments := insertD s.enrollments freshId (toEnrollmentRead e freshId now)
         courses := insertD s.courses e.course_id
           { course with current_enrollment := course.current_enrollment + 1 } },
       .ok (toEnrollmentRead e freshId now)) := by
  unfold create_enrollment
  rw [hstu, hcourse]
  simp [hactive, hcap]

theorem create_enrollment_rejected_state (s : AppState) (e : EnrollmentCreate)
    (freshId now : Nat) (err : HTTPException)
    (h : createEnrollmentRejection s e = some err) :
    create_enrollment s e freshId now = (s, .error err) := by
  unfold create_enrollment createEnrollmentRejection at *
  split at h
  · rename_i hstu
    rw [if_pos hstu]
    injection h with h
    exact h ▸ rfl
  · rename_i hstu
    rw [if_neg hstu]
    split at h
    · rename_i hcourse
      try simp only [hcourse]
      injection h with h
      exact h ▸ rfl
    · rename_i course hcourse
      try simp only [hcourse]
      split at h
      · rename_i hactive
        rw [if_pos hactive]
        injection h with h
        exact h ▸ rfl
      · rename_i hactive
        rw [if_neg hactive]
        split at h
        · rename_i hcap
          rw [if_pos hcap]
          injection h with h
          exact h ▸ rfl
        · exact absurd h (by simp)

theorem createEnrollmentRejection_none_inv (s : AppState) (e : EnrollmentCreate)
    (h : createEnrollmentRejection s e = none) :
    ∃ course, studentExists s e.student_uni = true ∧
      lookupD s.courses e.course_id = some course ∧
      course.is_active = true ∧ capacityFull course = false := by
  unfold createEnrollmentRejection at h
  split at h
  · exact absurd h (by simp)
  · rename_i hstu
    split at h
    · exact absurd h (by simp)
    · rename_i course hcourse
      split at h
      · exact absurd h (by simp)
      · rename_i hactive
        split at h
        · exact absurd h (by simp)
        · rename_i hcap
          exact ⟨course, by simpa using hstu, hcourse, by simpa using hactive,
            by simpa using hcap⟩

theorem delete_enrollment_of_lookup_none (s : AppState) (eid : Nat)
    (h : lookupD s.enrollments eid = none) :
    delete_enrollment s eid = (s, .error ⟨404, "Enrollment not found"⟩) := by
  simp [delete_enrollment, h]

theorem delete_enrollment_of_lookup_some (s : AppState) (eid : Nat) (enr : Enrollment)
    (h : lookupD s.enrollments eid = some enr) :
    delete_enrollment s eid =
      ({ s with
         courses := decrementCourseAt s.courses enr.course_id
         enrollments := eraseD s.enrollments eid }, .ok ()) := by
  simp [delete_enrollment, h]

/-! ### Sequences of enrollment operations -/

/-- One enrollment-level request: POST /enrollments (together with the
uuid4 key the server draws and the clock value) or
DELETE /enrollments/{id}. -/
inductive EnrollOp where
  | create (enrollment : EnrollmentCreate) (freshId now : Nat)
  | delete (enrollment_id : Nat)
deriving DecidableEq, Repr

/-- Whether an endpoint call returned a value rather than raising. -/
def isOkE {ε α : Type} : Except ε α → Bool
  | .ok _ => true
  | .error _ => false

/-- Execute one operation: next state plus whether the call succeeded. -/
def stepE (s : AppState) : EnrollOp → AppState × Bool
  | .create e freshId now =>
    ((create_enrollment s e freshId now).1, isOkE (create_enrollment s e freshId now).2)
  | .delete eid =>
    ((delete_enrollment s eid).1, isOkE (delete_enrollment s eid).2)

/-- Run a sequence of operations from a state. -/
def runE (s : AppState) : List EnrollOp → AppState
  | [] => s
  | op :: ops => runE (stepE s op).1 ops

/-- Number of successful CreateEnrollment calls referencing course C
along the run. -/
def createsFor (C : Nat) (s : AppState) : List EnrollOp → Nat
  | [] => 0
  | op :: ops =>
    (match op with
     | .create e _ _ => if (stepE s op).2 && (e.course_id == C) then 1 else 0
     | .delete _ => 0) + createsFor C (stepE s op).1 ops

/-- Number of successful DeleteEnrollment calls along the run whose
deleted record referenced course C at deletion time. -/
def deletesFor (C : Nat) (s : AppState) : List EnrollOp → Nat
  | [] => 0
  | op :: ops =>
    (match op with
     | .create _ _ _ => 0
     | .delete eid =>
       match lookupD s.enrollments eid with
       | some enr => if (stepE s op).2 && (enr.course_id == C) then 1 else 0
       | none => 0) + deletesFor C (stepE s op).1 ops

/-- Every create in the sequence draws a uuid4 key that is not already a
key of the enrollment store at the moment it runs. -/
def freshRun (s : AppState) : List EnrollOp → Bool
  | [] => true
  | op :: ops =>
    (match op with
     | .create _ freshId _ => !(containsD s.enrollments freshId)
     | .delete _ => true) && freshRun (stepE s op).1 ops

theorem runE_counter_invariant (C : Nat) (ops : List EnrollOp) :
    ∀ s : AppState,
      (s.enrollments.map Prod.fst).Nodup →
      freshRun s ops = true →
      (∀ c : Course, lookupD s.courses C = some c →
        c.current_enrollment = (countEnrFor C s : Int)) →
      ((runE s ops).enrollments.map Prod.fst).Nodup ∧
      countEnrFor C (runE s ops) + deletesFor C s ops
        = countEnrFor C s + createsFor C s ops ∧
      (∀ c : Course, lookupD (runE s ops).courses C = some c →
        c.current_enrollment = (countEnrFor C (runE s ops) : Int)) := by
  induction ops with
  | nil =>
    intro s hnd _ hinv
    exact ⟨hnd, by simp [runE, createsFor, deletesFor], hinv⟩
  | cons op ops ih =>
    intro s hnd hfresh hinv
    cases op with
    | create e fid now =>
      simp only [freshRun, Bool.and_eq_true] at hfresh
      obtain ⟨hfhead, hftail⟩ := hfresh
      have hfr : containsD s.enrollments fid = false := by simpa using hfhead
      cases hrej : createEnrollmentRejection s e with
      | some err =>
        have heq := create_enrollment_rejected_state s e fid now err hrej
        have hstep : stepE s (.create e fid now) = (s, false) := by
          simp [stepE, heq, isOkE]
        have hih := ih s hnd (by rw [hstep] at hftail; exact hftail) hinv
        simp only [runE, createsFor, deletesFor, hstep]
        exact ⟨hih.1, by have := hih.2.1; simp at this ⊢; omega, hih.2.2⟩
      | none =>
        obtain ⟨course, hstu, hcourse, hactive, hcap⟩ :=
          createEnrollmentRejection_none_inv s e hrej
        have heq := create_enrollment_ok_of_checks s e fid now course hstu hcourse
          hactive hcap
        have hstep : stepE s (.create e fid now) =
            ({ s with
               enrollments := insertD s.enrollments fid (toEnrollmentRead e fid now)
               courses := insertD s.courses e.course_id
                 { course with
                   current_enrollment := course.current_enrollment + 1 } },
             true) := by
          simp [stepE, heq, isOkE]
        set s' : AppState := (stepE s (.create e fid now)).1 with hs'
        have henr' : s'.enrollments
            = insertD s.enrollments fid (toEnrollmentRead e fid now) := by
          rw [hs', hstep]
        have hcourses' : s'.courses = insertD s.courses e.course_id
            { course with current_enrollment := course.current_enrollment + 1 } := by
          rw [hs', hstep]
        have hok : (stepE s (.create e fid now)).2 = true := by rw [hstep]
        have hins : insertD s.enrollments fid (toEnrollmentRead e fid now)
            = s.enrollments ++ [(fid, toEnrollmentRead e fid now)] :=
          insertD_of_not_containsD _ hfr
        have hnd' : (s'.enrollments.map Prod.fst).Nodup := by
          rw [henr']
          exact nodupKeys_insertD_fresh _ hnd hfr
        have hcount : countEnrFor C s'
            = countEnrFor C s + (if e.course_id = C then 1 else 0) := by
          show countC C s'.enrollments
            = countC C s.enrollments + (if e.course_id = C then 1 else 0)
          rw [henr', hins, countC_append_single]
          rfl
        have hinv' : ∀ c : Course, lookupD s'.courses C = some c →
            c.current_enrollment = (countEnrFor C s' : Int) := by
          intro c hc
          rw [hcourses'] at hc
          by_cases hCeq : C = e.course_id
          · subst hCeq
            rw [lookupD_insertD_self] at hc
            injection hc with hc
            have hc2 : c.current_enrollment = course.current_enrollment + 1 := by
              rw [← hc]
            have hcur := hinv course hcourse
            rw [if_pos rfl] at hcount
            rw [hc2, hcount, hcur]
            push_cast
            omega
          · rw [lookupD_insertD_ne _ _ _ _ hCeq] at hc
            have hcs := hinv c hc
            rw [if_neg (fun hh => hCeq hh.symm)] at hcount
            rw [hcount]
            omega
        have hih := ih s' hnd' hftail hinv'
        simp only [runE, createsFor, deletesFor, hok, Bool.true_and, ← hs']
        refine ⟨hih.1, ?_, hih.2.2⟩
        have hmain := hih.2.1
        by_cases hC : e.course_id = C
        · rw [if_pos (by simp [hC])]
          rw [if_pos hC] at hcount
          omega
        · rw [if_neg (by simp [hC])]
          rw [if_neg hC] at hcount
          omega
    | delete eid =>
      simp only [freshRun, Bool.true_and] at hfresh
      cases hlook : lookupD s.enrollments eid with
      | none =>
        have heq := delete_enrollment_of_lookup_none s eid hlook
        have hstep : stepE s (.delete eid) = (s, false) := by
          simp [stepE, heq, isOkE]
        have hih := ih s hnd (by rw [hstep] at hfresh; exact hfresh) hinv
        simp only [runE, createsFor, deletesFor, hstep, hlook]
        exact ⟨hih.1, by have := hih.2.1; simp at this ⊢; omega, hih.2.2⟩
      | some enr =>
        have heq := delete_enrollment_of_lookup_some s eid enr hlook
        have hstep : stepE s (.delete eid) =
            ({ s with
               courses := decrementCourseAt s.courses enr.course_id
               enrollments := eraseD s.enrollments eid }, true) := by
          simp [stepE, heq, isOkE]
        set s' : AppState := (stepE s (.delete eid)).1 with hs'
        have henr' : s'.enrollments = eraseD s.enrollments eid := by
          rw [hs', hstep]
        have hcourses' : s'.courses = decrementCourseAt s.courses enr.course_id := by
          rw [hs', hstep]
        have hok : (stepE s (.delete eid)).2 = true := by rw [hstep]
        have hnd' : (s'.enrollments.map Prod.fst).Nodup := by
          rw [henr']
          exact nodupKeys_eraseD eid hnd
        have hcount : countEnrFor C s
            = countEnrFor C s' + (if enr.course_id = C then 1 else 0) := by
          have hce := countC_eraseD C hnd hlook
          show countC C s.enrollments
            = countC C s'.enrollments + (if enr.course_id = C then 1 else 0)
          rw [henr']
          exact hce
        have hinv' : ∀ c : Course, lookupD s'.courses C = some c →
            c.current_enrollment = (countEnrFor C s' : Int) := by
          intro c hc
          rw [hcourses'] at hc
          unfold decrementCourseAt at hc
          cases hcr : lookupD s.courses enr.course_id with
          | none =>
            rw [hcr] at hc
            have hc2 : lookupD s.courses C = some c := hc
            have hcs := hinv c hc2
            have hne : ¬ enr.course_id = C := by
              intro hCeq
              rw [hCeq, hc2] at hcr
              exact Option.noConfusion hcr
            rw [if_neg hne] at hcount
            omega
          | some course =>
            rw [hcr] at hc
            have hc2 : lookupD (insertD s.courses enr.course_id
                { course with
                  current_enrollment := max 0 (course.current_enrollment - 1) }) C
                = some c := hc
            by_cases hCeq : C = enr.course_id
            · subst hCeq
              rw [lookupD_insertD_self] at hc2
              injection hc2 with hc2
              have hcur := hinv course hcr
              have hpos : 1 ≤ countEnrFor enr.course_id s :=
                countC_pos enr.course_id hlook rfl
              have hc3 : c.current_enrollment
                  = max 0 (course.current_enrollment - 1) := by
                rw [← hc2]
              have h0 : (0:Int) ≤ course.current_enrollment - 1 := by
                rw [hcur]
                omega
              rw [if_pos rfl] at hcount
              rw [hc3, max_eq_right h0, hcur]
              omega
            · rw [lookupD_insertD_ne _ _ _ _ hCeq] at hc2
              have hcs := hinv c hc2
              rw [if_neg (fun hh => hCeq hh.symm)] at hcount
              omega
        have hih := ih s' hnd' hfresh hinv'
        simp only [runE, createsFor, deletesFor, hok, hlook, Bool.true_and, ← hs']
        refine ⟨hih.1, ?_, hih.2.2⟩
        have hmain := hih.2.1
        by_cases hC : enr.course_id = C
        · rw [if_pos (by simp [hC])]
          rw [if_pos hC] at hcount
          omega
        · rw [if_neg (by simp [hC])]
          rw [if_neg hC] at hcount
          omega

/-! ### Shapes of replace/update operations -/

theorem replace_enrollment_ok_of_checks (s : AppState) (eid : Nat) (e : EnrollmentCreate)
    (now : Nat) (course : Course)
    (hid : containsD s.enrollments eid = true)
    (hcourse : lookupD s.courses e.course_id = some course)
    (hactive : course.is_active = true)
    (hcap : capacityFull course = false) :
    replace_enrollment s eid e now
      = ({ s with enrollments := insertD s.enrollments eid (toEnrollmentRead e eid now) },
         .ok (toEnrollmentRead e eid now)) := by
  unfold replace_enrollment
  rw [hid, hcourse]
  simp [hactive, hcap]

theorem replace_enrollment_rejected_state (s : AppState) (eid : Nat) (e : EnrollmentCreate)
    (now : Nat) (err : HTTPException)
    (h : replaceEnrollmentRejection s eid e = some err) :
    replace_enrollment s eid e now = (s, .error err) := by
  unfold replace_enrollment replaceEnrollmentRejection at *
  split at h
  · rename_i hid
    rw [if_pos hid]
    injection h with h
    exact h ▸ rfl
  · rename_i hid
    rw [if_neg hid]
    split at h
    · rename_i hcourse
      try simp only [hcourse]
      injection h with h
      exact h ▸ rfl
    · rename_i course hcourse
      try simp only [hcourse]
      split at h
      · rename_i hactive
        rw [if_pos hactive]
        injection h with h
        exact h ▸ rfl
      · rename_i hactive
        rw [if_neg hactive]
        split at h
        · rename_i hcap
          rw [if_pos hcap]
          injection h with h
          exact h ▸ rfl
        · exact absurd h (by simp)

theorem replaceEnrollmentRejection_none_inv (s : AppState) (eid : Nat)
    (e : EnrollmentCreate)
    (h : replaceEnrollmentRejection s eid e = none) :
    ∃ course, containsD s.enrollments eid = true ∧
      lookupD s.courses e.course_id = some course ∧
      course.is_active = true ∧ capacityFull course = false := by
  unfold replaceEnrollmentRejection at h
  split at h
  · exact absurd h (by simp)
  · rename_i hid
    split at h
    · exact absurd h (by simp)
    · rename_i course hcourse
      split at h
      · exact absurd h (by simp)
      · rename_i hactive
        split at h
        · exact absurd h (by simp)
        · rename_i hcap
          exact ⟨course, by simpa using hid, hcourse, by simpa using hactive,
            by simpa using hcap⟩

theorem update_enrollment_ok_of_checks (s : AppState) (eid : Nat) (u : EnrollmentUpdate)
    (stored : Enrollment)
    (hE : lookupD s.enrollments eid = some stored)
    (hcid : ∀ cid, u.course_id = some cid → containsD s.courses cid = true) :
    update_enrollment s eid u
      = ({ s with
           enrollments := insertD s.enrollments eid (applyEnrollmentUpdate stored u) },
         .ok (applyEnrollmentUpdate stored u)) := by
  have hcont := containsD_eq_true_of_lookupD hE
  have h2 : (match u.course_id with
             | some cid => !(containsD s.courses cid)
             | none => false) = false := by
    cases hu : u.course_id with
    | none => rfl
    | some cid => simp [hcid cid hu]
  unfold update_enrollment
  rw [hcont, h2, hE]
  simp

theorem capacityFull_eq_spec (course : Course) (hwf : courseWf course = true) :
    capacityFull course = specCapacityError course := by
  unfold capacityFull specCapacityError courseWf at *
  cases hm : course.max_enrollment with
  | none => rfl
  | some m =>
    rw [hm] at hwf
    simp only [Bool.and_eq_true, decide_eq_true_eq] at hwf
    have h1 : 1 ≤ m := hwf.2
    have hm0 : (m != 0) = true := by
      simp only [bne_iff_ne, ne_eq]
      omega
    simp [hm0]

/-! ### Concrete sample data used by witnesses and counterexamples -/

/-- A stored person, uni abc1234. -/
def alice : Person := { uni := "abc1234" }

/-- An active course with spare capacity, stored under key 1. -/
def courseA : Course :=
  { id := 1, code := "CS101", title := "Intro to CS", credits := 3
    department := "Computer Science", semester := "Fall 2024"
    max_enrollment := some 30, current_enrollment := 1
    is_active := true, created_at := 0, updated_at := 0 }

/-- An active course without a capacity bound, stored under key 2. -/
def courseB : Course :=
  { id := 2, code := "MA101", title := "Calculus", credits := 4
    department := "Mathematics", semester := "Fall 2024"
    max_enrollment := none, current_enrollment := 5
    is_active := true, created_at := 0, updated_at := 0 }

/-- An active course at capacity, stored under key 3. -/
def courseFull : Course :=
  { id := 3, code := "EE101", title := "Circuits", credits := 3
    department := "Electrical Engineering", semester := "Fall 2024"
    max_enrollment := some 2, current_enrollment := 2
    is_active := true, created_at := 0, updated_at := 0 }

/-- An inactive course, stored under key 4. -/
def courseInactive : Course :=
  { id := 4, code := "PH101", title := "Mechanics", credits := 3
    department := "Physics", semester := "Fall 2024"
    max_enrollment := some 10, current_enrollment := 0
    is_active := false, created_at := 0, updated_at := 0 }

/-- A stored enrollment of alice in course 1, stored under key 5. -/
def enrE : Enrollment :=
  { id := 5, student_uni := "abc1234", course_id := 1, enrollment_date := 100
    created_at := 0, updated_at := 0 }

/-- The sample store state. -/
def st0 : AppState :=
  { persons := [(10, alice)]
    courses := [(1, courseA), (2, courseB), (3, courseFull), (4, courseInactive)]
    enrollments := [(5, enrE)] }

/-- Creation payload for alice in course 1. -/
def payloadNew : EnrollmentCreate :=
  { student_uni := "abc1234", course_id := 1, enrollment_date := 101 }

/-- Creation payload naming a uni no stored person has. -/
def payloadGhost : EnrollmentCreate :=
  { student_uni := "zz9999", course_id := 1, enrollment_date := 102 }

/-- Creation payload against the inactive course 4. -/
def payloadInactive : EnrollmentCreate :=
  { student_uni := "abc1234", course_id := 4, enrollment_date := 103 }

/-- Creation payload against the full course 3. -/
def payloadFull : EnrollmentCreate :=
  { student_uni := "abc1234", course_id := 3, enrollment_date := 104 }

/-- A full-replacement Course payload; its current_enrollment is the
model default 0. -/
def putPayload : CourseCreate :=
  { id := 99, code := "CS102", title := "Intro v2", credits := 3
    department := "Computer Science", semester := "Spring 2025" }

/-- A course-creation payload reusing the already-stored id 1 and
carrying a client-supplied counter value 7. -/
def dupCoursePayload : CourseCreate :=
  { id := 1, code := "CS777", title := "Hijacked", credits := 3
    department := "Computer Science", semester := "Fall 2024"
    current_enrollment := 7 }

/-- A PATCH payload supplying every field the CourseUpdate model has. -/
def fullPatch : CourseUpdate :=
  { code := some "CS999", title := some "Everything changed"
    description := some "all update fields supplied", credits := some 4
    department := some "Math", instructor := some "Dr X"
    semester := some "Spring 2031", start_date := some 11, end_date := some 12
    max_enrollment := some 50, tuition_fee := some 2000
    prerequisites := some ["CS101"], is_active := some false }

/-- A two-operation run: enroll alice in course 1 (fresh key 6), then
delete the stored enrollment 5. -/
def c3Ops : List EnrollOp := [.create payloadNew 6 200, .delete 5]

/-! ### C1 -/

/-- C1: a CreateEnrollment call whose payload passes all four validation
checks succeeds, stores the new Enrollment under the freshly drawn key
(not previously in the store), increments exactly the referenced
Course's current_enrollment by one, and leaves every other course (and
every other enrollment) unchanged. -/
theorem createEnrollment_success_effects (s : AppState) (e : EnrollmentCreate)
    (freshId now : Nat) (course : Course) (cid eid : Nat)
    (hstu : studentExists s e.student_uni = true)
    (hcourse : lookupD s.courses e.course_id = some course)
    (hactive : course.is_active = true)
    (hcap : capacityFull course = false)
    (hfresh : containsD s.enrollments freshId = false)
    (hcid : cid ≠ e.course_id) (heid : eid ≠ freshId) :
    (create_enrollment s e freshId now).2 = .ok (toEnrollmentRead e freshId now) ∧
    (toEnrollmentRead e freshId now).id = freshId ∧
    lookupD s.enrollments freshId = none ∧
    lookupD (create_enrollment s e freshId now).1.enrollments freshId
      = some (toEnrollmentRead e freshId now) ∧
    lookupD (create_enrollment s e freshId now).1.courses e.course_id
      = some { course with current_enrollment := course.current_enrollment + 1 } ∧
    lookupD (create_enrollment s e freshId now).1.courses cid = lookupD s.courses cid ∧
    lookupD (create_enrollment s e freshId now).1.enrollments eid
      = lookupD s.enrollments eid := by
  have heq := create_enrollment_ok_of_checks s e freshId now course hstu hcourse
    hactive hcap
  rw [heq]
  exact ⟨rfl, rfl, lookupD_eq_none_of_not_containsD hfresh,
    lookupD_insertD_self _ _ _, lookupD_insertD_self _ _ _,
    lookupD_insertD_ne _ _ _ _ hcid, lookupD_insertD_ne _ _ _ _ heid⟩

/-- C1 witness: the checks hold in the sample state for payloadNew with
fresh key 6, and the conclusion holds there. -/
theorem createEnrollment_success_effects_witness :
    (studentExists st0 payloadNew.student_uni = true ∧
     lookupD st0.courses payloadNew.course_id = some courseA ∧
     courseA.is_active = true ∧ capacityFull courseA = false ∧
     containsD st0.enrollments 6 = false) ∧
    ((create_enrollment st0 payloadNew 6 200).2
        = .ok (toEnrollmentRead payloadNew 6 200) ∧
     (toEnrollmentRead payloadNew 6 200).id = 6 ∧
     lookupD st0.enrollments 6 = none ∧
     lookupD (create_enrollment st0 payloadNew 6 200).1.enrollments 6
        = some (toEnrollmentRead payloadNew 6 200) ∧
     lookupD (create_enrollment st0 payloadNew 6 200).1.courses payloadNew.course_id
        = some { courseA with current_enrollment := courseA.current_enrollment + 1 } ∧
     lookupD (create_enrollment st0 payloadNew 6 200).1.courses 2
        = lookupD st0.courses 2 ∧
     lookupD (create_enrollment st0 payloadNew 6 200).1.enrollments 5
        = lookupD st0.enrollments 5) :=
  ⟨⟨by decide, by decide, by decide, by decide, by decide⟩,
   createEnrollment_success_effects st0 payloadNew 6 200 courseA 2 5
     (by decide) (by decide) (by decide) (by decide) (by decide)
     (by decide) (by decide)⟩

/-! ### C2 -/

/-- C2: a CreateEnrollment call failing any validation check (unknown
student, unknown course, inactive course, exhausted capacity — computed
in source order by createEnrollmentRejection) returns exactly that
error with the state unchanged: no enrollment write, no counter
write. -/
theorem createEnrollment_failed_check_aborts (s : AppState) (e : EnrollmentCreate)
    (freshId now : Nat) (err : HTTPException)
    (h : createEnrollmentRejection s e = some err) :
    create_enrollment s e freshId now = (s, .error err) :=
  create_enrollment_rejected_state s e freshId now err h

/-- C2 witness: enrolling into the inactive course 4 is rejected with
the active-status error and the whole state is returned unchanged. -/
theorem createEnrollment_failed_check_aborts_witness :
    createEnrollmentRejection st0 payloadInactive
      = some ⟨400, "Course is not active"⟩ ∧
    create_enrollment st0 payloadInactive 7 300
      = (st0, .error ⟨400, "Course is not active"⟩) :=
  ⟨by decide,
   createEnrollment_failed_check_aborts st0 payloadInactive 7 300
     ⟨400, "Course is not active"⟩ (by decide)⟩

/-! ### C3 -/

/-- Decidable form of "C's stored counter equals the number of stored
enrollments referencing C" (vacuously true when C is not stored). -/
def counterMatches (C : Nat) (s : AppState) : Bool :=
  match lookupD s.courses C with
  | some c => c.current_enrollment == (countEnrFor C s : Int)
  | none => true

/-- The state after one create_course call with the payload that
supplies current_enrollment = 7. -/
def st3 : AppState := (create_course initialState dupCoursePayload 0).1

/-- C3 counterexample: the operation sequence consisting of the single
course-creation call with a client-supplied current_enrollment of 7
(and no enrollment operation at all) leaves course 1 with counter 7,
while the claimed formula — successful creates minus successful
deletes, floored at zero — gives 0. -/
theorem counter_formula_counterexample :
    runE st3 [] = st3 ∧
    createsFor 1 st3 [] = 0 ∧
    deletesFor 1 st3 [] = 0 ∧
    (lookupD st3.courses 1).map Course.current_enrollment = some 7 ∧
    ((lookupD st3.courses 1).map Course.current_enrollment
        == some (max 0 ((createsFor 1 st3 [] : Int) - (deletesFor 1 st3 [] : Int))))
      = false :=
  ⟨rfl, rfl, rfl, rfl, by decide⟩

/-- C3 (amended): restricted to sequences of enrollment create/delete
operations whose creates draw fresh keys, starting from a state with
duplicate-free enrollment keys whose stored counter for C matches the
number of stored enrollments referencing C, the final counter of C
satisfies counter + successful deletes of records referencing C =
initial reference count + successful creates referencing C (so with an
initially empty store the counter equals creates minus deletes, and the
floor at zero never engages); moreover the final counter equals the
number of stored enrollments then referencing C. -/
theorem counter_tracks_enrollment_ops (C : Nat) (ops : List EnrollOp) (s : AppState)
    (c' : Course)
    (hnd : (s.enrollments.map Prod.fst).Nodup)
    (hfresh : freshRun s ops = true)
    (hinv : counterMatches C s = true)
    (hfinal : lookupD (runE s ops).courses C = some c') :
    c'.current_enrollment + (deletesFor C s ops : Int)
      = (countEnrFor C s : Int) + (createsFor C s ops : Int) ∧
    c'.current_enrollment = (countEnrFor C (runE s ops) : Int) := by
  have hinv' : ∀ c : Course, lookupD s.courses C = some c →
      c.current_enrollment = (countEnrFor C s : Int) := by
    intro c hc
    unfold counterMatches at hinv
    rw [hc] at hinv
    exact eq_of_beq hinv
  obtain ⟨_, hcnt, hfin⟩ := runE_counter_invariant C ops s hnd hfresh hinv'
  have hfc := hfin c' hfinal
  refine ⟨?_, hfc⟩
  rw [hfc]
  omega

/-- C3 witness: running the sample create-then-delete sequence from the
sample state (course 1 counter 1, one stored enrollment referencing it)
ends with course 1 stored exactly as courseA again, and the bookkeeping
equation holds with one successful create and one successful delete. -/
theorem counter_tracks_enrollment_ops_witness :
    (st0.enrollments.map Prod.fst).Nodup ∧
    freshRun st0 c3Ops = true ∧
    counterMatches 1 st0 = true ∧
    lookupD (runE st0 c3Ops).courses 1 = some courseA ∧
    (courseA.current_enrollment + (deletesFor 1 st0 c3Ops : Int)
        = (countEnrFor 1 st0 : Int) + (createsFor 1 st0 c3Ops : Int) ∧
      courseA.current_enrollment = (countEnrFor 1 (runE st0 c3Ops) : Int)) :=
  ⟨by decide, by decide, by decide, by decide,
   counter_tracks_enrollment_ops 1 c3Ops st0 courseA
     (by decide) (by decide) (by decide) (by decide)⟩

/-! ### C4 -/

/-- C4 counterexample: replacing the stored enrollment 5 with a payload
whose student_uni matches no stored Person succeeds (the claim says it
must fail with the student ReferenceError); the courses store is
untouched. -/
theorem replaceEnrollment_missing_student_check_counterexample :
    studentExists st0 "zz9999" = false ∧
    payloadGhost.student_uni = "zz9999" ∧
    (replace_enrollment st0 5 payloadGhost 9).2
      = .ok (toEnrollmentRead payloadGhost 5 9) ∧
    (replace_enrollment st0 5 payloadGhost 9).1.courses = st0.courses :=
  ⟨by decide, rfl, rfl, rfl⟩

/-- C4 (amended): ReplaceEnrollment re-runs the course-existence,
active-status and capacity checks of create against the new payload —
but performs no student check — and on success overwrites the record
under the same id without touching the courses store (no counter
adjustment). -/
theorem replaceEnrollment_checks_and_overwrite (s : AppState) (eid : Nat)
    (e : EnrollmentCreate) (now : Nat) (err : HTTPException) :
    (replaceEnrollmentRejection s eid e = some err →
      replace_enrollment s eid e now = (s, .error err)) ∧
    (replaceEnrollmentRejection s eid e = none →
      replace_enrollment s eid e now
        = ({ s with
             enrollments := insertD s.enrollments eid (toEnrollmentRead e eid now) },
           .ok (toEnrollmentRead e eid now)) ∧
      (toEnrollmentRead e eid now).id = eid ∧
      ({ s with
         enrollments := insertD s.enrollments eid (toEnrollmentRead e eid now) }).courses
        = s.courses) := by
  constructor
  · intro h
    exact replace_enrollment_rejected_state s eid e now err h
  · intro h
    obtain ⟨course, hid, hcourse, hactive, hcap⟩ :=
      replaceEnrollmentRejection_none_inv s eid e h
    exact ⟨replace_enrollment_ok_of_checks s eid e now course hid hcourse
      hactive hcap, rfl, rfl⟩

/-- C4 witness: for the ghost-student payload the rejection check is
none — the student is never consulted — and the successful overwrite
holds at the sample state. -/
theorem replaceEnrollment_checks_and_overwrite_witness :
    replaceEnrollmentRejection st0 5 payloadGhost = none ∧
    (replace_enrollment st0 5 payloadGhost 9
        = ({ st0 with
             enrollments := insertD st0.enrollments 5 (toEnrollmentRead payloadGhost 5 9) },
           .ok (toEnrollmentRead payloadGhost 5 9)) ∧
      (toEnrollmentRead payloadGhost 5 9).id = 5 ∧
      ({ st0 with
         enrollments := insertD st0.enrollments 5 (toEnrollmentRead payloadGhost 5 9) }).courses
        = st0.courses) :=
  ⟨by decide,
   (replaceEnrollment_checks_and_overwrite st0 5 payloadGhost 9 ⟨0, ""⟩).2 (by decide)⟩

/-! ### C5 -/

/-- C5 counterexample: course 1 is stored with current_enrollment 1; a
full replacement (PUT) with a payload whose current_enrollment is the
default 0 succeeds and leaves the stored counter at 0 — a direct Course
operation changed current_enrollment. -/
theorem coursePut_overwrites_counter_counterexample :
    (lookupD st0.courses 1).map Course.current_enrollment = some 1 ∧
    (replace_course st0 1 putPayload 7).2
      = .ok { toCourseRead putPayload 7 with id := 1 } ∧
    (lookupD (replace_course st0 1 putPayload 7).1.courses 1).map
        Course.current_enrollment = some 0 :=
  ⟨rfl, rfl, rfl⟩

/-- C5 (amended): partial update (PATCH) of a stored Course never
changes current_enrollment — the merged record keeps the stored value —
while full replacement (PUT) overwrites the stored counter with the
payload's current_enrollment value. -/
theorem courseCounter_patch_preserves_put_overwrites (s : AppState) (course_id : Nat)
    (u : CourseUpdate) (c : CourseCreate) (now : Nat) (stored : Course)
    (hstored : lookupD s.courses course_id = some stored) :
    (update_course s course_id u).2 = .ok (applyCourseUpdate stored u) ∧
    (applyCourseUpdate stored u).current_enrollment = stored.current_enrollment ∧
    lookupD (update_course s course_id u).1.courses course_id
      = some (applyCourseUpdate stored u) ∧
    (replace_course s course_id c now).2 = .ok { toCourseRead c now with id := course_id } ∧
    lookupD (replace_course s course_id c now).1.courses course_id
      = some { toCourseRead c now with id := course_id } ∧
    ({ toCourseRead c now with id := course_id }).current_enrollment
      = c.current_enrollment := by
  have hcont : containsD s.courses course_id = true := containsD_eq_true_of_lookupD hstored
  refine ⟨?_, rfl, ?_, ?_, ?_, rfl⟩
  · simp [update_course, hstored]
  · simp only [update_course, hstored]
    exact lookupD_insertD_self _ _ _
  · simp [replace_course, hcont]
  · simp only [replace_course, hcont, if_true]
    exact lookupD_insertD_self _ _ _

/-- C5 witness: in the sample state, patching course 1 with the
every-field payload keeps the counter at 1, and replacing it with the
PUT payload stores the payload counter 0. -/
theorem courseCounter_patch_preserves_put_overwrites_witness :
    lookupD st0.courses 1 = some courseA ∧
    ((update_course st0 1 fullPatch).2 = .ok (applyCourseUpdate courseA fullPatch) ∧
     (applyCourseUpdate courseA fullPatch).current_enrollment
        = courseA.current_enrollment ∧
     lookupD (update_course st0 1 fullPatch).1.courses 1
        = some (applyCourseUpdate courseA fullPatch) ∧
     (replace_course st0 1 putPayload 7).2
        = .ok { toCourseRead putPayload 7 with id := 1 } ∧
     lookupD (replace_course st0 1 putPayload 7).1.courses 1
        = some { toCourseRead putPayload 7 with id := 1 } ∧
     ({ toCourseRead putPayload 7 with id := 1 }).current_enrollment
        = putPayload.current_enrollment) :=
  ⟨by decide,
   courseCounter_patch_preserves_put_overwrites st0 1 fullPatch putPayload 7 courseA
     (by decide)⟩

/-! ### C6 -/

/-- C6 counterexample: the PATCH payload supplying every field the
CourseUpdate model has succeeds against course 1 (changing, e.g., its
title) yet the stored current_enrollment is still 1 — no partial-update
payload field targets the counter, because CourseUpdate has no
current_enrollment field. -/
theorem coursePatch_counter_unchanged_counterexample :
    (lookupD st0.courses 1).map Course.current_enrollment = some 1 ∧
    (update_course st0 1 fullPatch).2 = .ok (applyCourseUpdate courseA fullPatch) ∧
    (applyCourseUpdate courseA fullPatch).title = "Everything changed" ∧
    (lookupD (update_course st0 1 fullPatch).1.courses 1).map Course.current_enrollment
      = some 1 :=
  ⟨rfl, rfl, rfl, rfl⟩

/-- C6 (amended): no partial-update (PATCH) payload can overwrite a
stored Course's current_enrollment: the payload model has no such
field, so every successful PATCH stores a record whose counter equals
the previously stored one.  (The counter can instead be overwritten by
full replacement, PUT.) -/
theorem coursePatch_cannot_touch_counter (s : AppState) (course_id : Nat)
    (u : CourseUpdate) (stored : Course)
    (hstored : lookupD s.courses course_id = some stored) :
    (update_course s course_id u).2 = .ok (applyCourseUpdate stored u) ∧
    (applyCourseUpdate stored u).current_enrollment = stored.current_enrollment ∧
    (lookupD (update_course s course_id u).1.courses course_id).map
        Course.current_enrollment = some stored.current_enrollment := by
  refine ⟨?_, rfl, ?_⟩
  · simp [update_course, hstored]
  · simp only [update_course, hstored]
    rw [lookupD_insertD_self _ _ _]
    rfl

/-- C6 witness: the all-fields PATCH payload against course 1 in the
sample state leaves the stored counter at courseA's value 1. -/
theorem coursePatch_cannot_touch_counter_witness :
    lookupD st0.courses 1 = some courseA ∧
    ((update_course st0 1 fullPatch).2 = .ok (applyCourseUpdate courseA fullPatch) ∧
     (applyCourseUpdate courseA fullPatch).current_enrollment
        = courseA.current_enrollment ∧
     (lookupD (update_course st0 1 fullPatch).1.courses 1).map Course.current_enrollment
        = some courseA.current_enrollment) :=
  ⟨by decide, coursePatch_cannot_touch_counter st0 1 fullPatch courseA (by decide)⟩

/-! ### C7 -/

/-- A state whose stored enrollment 5 references course 1, which no
longer exists in the course store (dangling reference). -/
def stD : AppState :=
  { persons := [(10, alice)]
    courses := [(2, courseB)]
    enrollments := [(5, enrE)] }

/-- C7: when the id is absent from the enrollment store — in any state —
the delete fails with the 404 error and returns the state unchanged (so
a second delete of the same id also fails with 404 and never decrements
a counter twice, as the final conjunct shows on the post-delete state);
when the id is present the delete succeeds, removes the record, and
rewrites the course store by decrementCourseAt: if the record's
course_id no longer resolves the course store is untouched (no
decrement), and if it still resolves that course is stored back with
current_enrollment = max(0, old - 1), which is never negative. -/
theorem deleteEnrollment_spec (s : AppState) (eid : Nat) (enr : Enrollment)
    (course : Course) :
    (lookupD s.enrollments eid = none →
      delete_enrollment s eid = (s, .error ⟨404, "Enrollment not found"⟩)) ∧
    (lookupD s.enrollments eid = some enr →
      (delete_enrollment s eid).2 = .ok () ∧
      (delete_enrollment s eid).1.enrollments = eraseD s.enrollments eid ∧
      lookupD (delete_enrollment s eid).1.enrollments eid = none ∧
      (delete_enrollment s eid).1.courses = decrementCourseAt s.courses enr.course_id ∧
      (lookupD s.courses enr.course_id = none →
        (delete_enrollment s eid).1.courses = s.courses) ∧
      (lookupD s.courses enr.course_id = some course →
        lookupD (delete_enrollment s eid).1.courses enr.course_id
          = some { course with
                   current_enrollment := max 0 (course.current_enrollment - 1) } ∧
        (0:Int) ≤ max 0 (course.current_enrollment - 1)) ∧
      delete_enrollment (delete_enrollment s eid).1 eid
        = ((delete_enrollment s eid).1, .error ⟨404, "Enrollment not found"⟩)) := by
  constructor
  · intro h
    exact delete_enrollment_of_lookup_none s eid h
  · intro hE
    have heq := delete_enrollment_of_lookup_some s eid enr hE
    rw [heq]
    refine ⟨rfl, rfl, lookupD_eraseD_self _ _, rfl, ?_, ?_, ?_⟩
    · intro hnone
      show decrementCourseAt s.courses enr.course_id = s.courses
      unfold decrementCourseAt
      rw [hnone]
    · intro hc
      refine ⟨?_, le_max_left 0 _⟩
      show lookupD (decrementCourseAt s.courses enr.course_id) enr.course_id = _
      unfold decrementCourseAt
      rw [hc]
      exact lookupD_insertD_self _ _ _
    · exact delete_enrollment_of_lookup_none _ eid (lookupD_eraseD_self _ _)

/-- C7 witness, exercising all three scenarios: deleting the absent id
99 in the sample state fails with 404 and changes nothing; deleting the
stored enrollment 5 succeeds, removes it, decrements course 1 from 1 to
0, and a second delete of id 5 fails with 404 on the resulting state;
deleting enrollment 5 in the dangling state (its course 1 is gone)
succeeds and leaves the course store untouched. -/
theorem deleteEnrollment_spec_witness :
    (lookupD st0.enrollments 99 = none ∧
     delete_enrollment st0 99 = (st0, .error ⟨404, "Enrollment not found"⟩)) ∧
    (lookupD st0.enrollments 5 = some enrE ∧
     lookupD st0.courses enrE.course_id = some courseA ∧
     (delete_enrollment st0 5).2 = .ok () ∧
     lookupD (delete_enrollment st0 5).1.enrollments 5 = none ∧
     lookupD (delete_enrollment st0 5).1.courses enrE.course_id
       = some { courseA with
                current_enrollment := max 0 (courseA.current_enrollment - 1) } ∧
     delete_enrollment (delete_enrollment st0 5).1 5
       = ((delete_enrollment st0 5).1, .error ⟨404, "Enrollment not found"⟩)) ∧
    (lookupD stD.enrollments 5 = some enrE ∧
     lookupD stD.courses enrE.course_id = none ∧
     (delete_enrollment stD 5).2 = .ok () ∧
     (delete_enrollment stD 5).1.courses = stD.courses) :=
  ⟨⟨by decide, (deleteEnrollment_spec st0 99 enrE courseA).1 (by decide)⟩,
   ⟨by decide, by decide,
    ((deleteEnrollment_spec st0 5 enrE courseA).2 (by decide)).1,
    ((deleteEnrollment_spec st0 5 enrE courseA).2 (by decide)).2.2.1,
    (((deleteEnrollment_spec st0 5 enrE courseA).2 (by decide)).2.2.2.2.2.1
      (by decide)).1,
    ((deleteEnrollment_spec st0 5 enrE courseA).2 (by decide)).2.2.2.2.2.2⟩,
   ⟨by decide, by decide,
    ((deleteEnrollment_spec stD 5 enrE courseB).2 (by decide)).1,
    ((deleteEnrollment_spec stD 5 enrE courseB).2 (by decide)).2.2.2.2.1
      (by decide)⟩⟩

/-! ### C8 -/

/-- C8: given the student, course-existence and active checks pass and
the course satisfies the pydantic field bounds (max_enrollment at least
1 when present), CreateEnrollment returns the capacity error — with the
state unchanged — exactly when the course has a non-null max_enrollment
that its current_enrollment has reached. -/
theorem createEnrollment_capacity_error_iff (s : AppState) (e : EnrollmentCreate)
    (freshId now : Nat) (course : Course)
    (hstu : studentExists s e.student_uni = true)
    (hcourse : lookupD s.courses e.course_id = some course)
    (hactive : course.is_active = true)
    (hwf : courseWf course = true) :
    (create_enrollment s e freshId now
        = (s, .error ⟨400, "Course enrollment is full"⟩))
      ↔ specCapacityError course = true := by
  have hcf := capacityFull_eq_spec course hwf
  constructor
  · intro h
    by_contra hspec
    have hcap : capacityFull course = false := by
      rw [hcf]
      exact Bool.not_eq_true _ ▸ hspec
    have heq := create_enrollment_ok_of_checks s e freshId now course hstu hcourse
      hactive hcap
    rw [heq] at h
    exact absurd (congrArg Prod.snd h) (by simp)
  · intro hspec
    have hcap : capacityFull course = true := by rw [hcf]; exact hspec
    have hrej : createEnrollmentRejection s e
        = some ⟨400, "Course enrollment is full"⟩ := by
      unfold createEnrollmentRejection
      rw [hstu, hcourse]
      simp [hactive, hcap]
    exact create_enrollment_rejected_state s e freshId now _ hrej

/-- C8 witness: course 3 is at capacity (max 2, counter 2) and the
equivalence holds there: the call fails with the capacity error. -/
theorem createEnrollment_capacity_error_iff_witness :
    studentExists st0 payloadFull.student_uni = true ∧
    lookupD st0.courses payloadFull.course_id = some courseFull ∧
    courseFull.is_active = true ∧
    courseWf courseFull = true ∧
    ((create_enrollment st0 payloadFull 8 400
        = (st0, .error ⟨400, "Course enrollment is full"⟩))
      ↔ specCapacityError courseFull = true) :=
  ⟨by decide, by decide, by decide, by decide,
   createEnrollment_capacity_error_iff st0 payloadFull 8 400 courseFull
     (by decide) (by decide) (by decide) (by decide)⟩

/-! ### C9 -/

/-- C9 counterexample: course 1 is stored; a creation call whose payload
reuses id 1 succeeds and silently overwrites the stored record (the new
stored title differs from the old one) — creation can store a Course
under an identifier already in use. -/
theorem courseCreate_overwrites_existing_counterexample :
    lookupD st0.courses 1 = some courseA ∧
    (create_course st0 dupCoursePayload 3).2.id = 1 ∧
    lookupD (create_course st0 dupCoursePayload 3).1.courses 1
      = some (toCourseRead dupCoursePayload 3) ∧
    ((toCourseRead dupCoursePayload 3).title == courseA.title) = false :=
  ⟨by decide, rfl, by decide, by decide⟩

/-- C9 (amended): update (PATCH) and replacement (PUT) never change a
stored Course's identifier — the merged record keeps the stored id and
the replacement record carries the path id — but creation stores the
record under the payload-supplied id (uuid4-fresh only by default) with
no uniqueness check, so reusing an existing id silently overwrites that
Course. -/
theorem courseId_stability (s : AppState) (course_id : Nat) (u : CourseUpdate)
    (c : CourseCreate) (now : Nat) (stored : Course)
    (hstored : lookupD s.courses course_id = some stored) :
    (applyCourseUpdate stored u).id = stored.id ∧
    lookupD (update_course s course_id u).1.courses course_id
      = some (applyCourseUpdate stored u) ∧
    ({ toCourseRead c now with id := course_id } : Course).id = course_id ∧
    lookupD (replace_course s course_id c now).1.courses course_id
      = some { toCourseRead c now with id := course_id } ∧
    lookupD (create_course s c now).1.courses c.id = some (toCourseRead c now) := by
  have hcont : containsD s.courses course_id = true := containsD_eq_true_of_lookupD hstored
  refine ⟨rfl, ?_, rfl, ?_, ?_⟩
  · simp only [update_course, hstored]
    exact lookupD_insertD_self _ _ _
  · simp only [replace_course, hcont, if_true]
    exact lookupD_insertD_self _ _ _
  · show lookupD (insertD s.courses (toCourseRead c now).id (toCourseRead c now)) c.id
      = some (toCourseRead c now)
    exact lookupD_insertD_self _ _ _

/-- C9 witness: in the sample state, patching and replacing course 1
keep id 1, and creating with the id-1-reusing payload stores under
key 1. -/
theorem courseId_stability_witness :
    lookupD st0.courses 1 = some courseA ∧
    ((applyCourseUpdate courseA fullPatch).id = courseA.id ∧
     lookupD (update_course st0 1 fullPatch).1.courses 1
        = some (applyCourseUpdate courseA fullPatch) ∧
     ({ toCourseRead dupCoursePayload 7 with id := 1 } : Course).id = 1 ∧
     lookupD (replace_course st0 1 dupCoursePayload 7).1.courses 1
        = some { toCourseRead dupCoursePayload 7 with id := 1 } ∧
     lookupD (create_course st0 dupCoursePayload 7).1.courses dupCoursePayload.id
        = some (toCourseRead dupCoursePayload 7)) :=
  ⟨by decide,
   courseId_stability st0 1 fullPatch dupCoursePayload 7 courseA (by decide)⟩

/-! ### C10 -/

/-- C10: patching a stored enrollment that references existing course A
so that its course_id becomes a different existing course B succeeds
and leaves the courses store (both counters) untouched; a subsequent
delete of that enrollment succeeds and decrements B's counter (floored
at zero) while A's stored record — counter included — is unchanged, so
A keeps the increment from the enrollment's creation. -/
theorem enrollmentRetarget_then_delete (s : AppState) (eid A B : Nat)
    (E : Enrollment) (cA cB : Course)
    (hE : lookupD s.enrollments eid = some E)
    (_hEA : E.course_id = A)
    (hA : lookupD s.courses A = some cA)
    (hB : lookupD s.courses B = some cB)
    (hAB : A ≠ B) :
    (update_enrollment s eid { course_id := some B }).2
      = .ok (applyEnrollmentUpdate E { course_id := some B }) ∧
    (update_enrollment s eid { course_id := some B }).1.courses = s.courses ∧
    (applyEnrollmentUpdate E { course_id := some B }).course_id = B ∧
    (delete_enrollment (update_enrollment s eid { course_id := some B }).1 eid).2
      = .ok () ∧
    lookupD (delete_enrollment
        (update_enrollment s eid { course_id := some B }).1 eid).1.courses B
      = some { cB with current_enrollment := max 0 (cB.current_enrollment - 1) } ∧
    lookupD (delete_enrollment
        (update_enrollment s eid { course_id := some B }).1 eid).1.courses A
      = some cA := by
  have hcont : ∀ cid, ({ course_id := some B } : EnrollmentUpdate).course_id = some cid →
      containsD s.courses cid = true := by
    intro cid hcid
    injection hcid with hcid
    rw [← hcid]
    exact containsD_eq_true_of_lookupD hB
  have hupd := update_enrollment_ok_of_checks s eid { course_id := some B } E hE hcont
  rw [hupd]
  have hlook' : lookupD
      (insertD s.enrollments eid (applyEnrollmentUpdate E { course_id := some B })) eid
      = some (applyEnrollmentUpdate E { course_id := some B }) :=
    lookupD_insertD_self _ _ _
  have hdel := delete_enrollment_of_lookup_some
    { s with enrollments :=
        insertD s.enrollments eid (applyEnrollmentUpdate E { course_id := some B }) }
    eid (applyEnrollmentUpdate E { course_id := some B }) hlook'
  rw [hdel]
  have hAB' : A ≠ (applyEnrollmentUpdate E { course_id := some B }).course_id := hAB
  refine ⟨rfl, rfl, rfl, rfl, ?_, ?_⟩
  · show lookupD (decrementCourseAt s.courses
        (applyEnrollmentUpdate E { course_id := some B }).course_id) B = _
    unfold decrementCourseAt
    have hBc : lookupD s.courses
        (applyEnrollmentUpdate E { course_id := some B }).course_id = some cB := hB
    rw [hBc]
    exact lookupD_insertD_self _ _ _
  · show lookupD (decrementCourseAt s.courses
        (applyEnrollmentUpdate E { course_id := some B }).course_id) A = _
    unfold decrementCourseAt
    have hBc : lookupD s.courses
        (applyEnrollmentUpdate E { course_id := some B }).course_id = some cB := hB
    rw [hBc]
    rw [lookupD_insertD_ne _ _ _ _ hAB']
    exact hA

/-- C10 witness: retargeting enrollment 5 in the sample state from
course 1 to course 2 and then deleting it decrements course 2's counter
from 5 to 4 and leaves course 1 stored as courseA (counter 1)
unchanged. -/
theorem enrollmentRetarget_then_delete_witness :
    lookupD st0.enrollments 5 = some enrE ∧
    enrE.course_id = 1 ∧
    lookupD st0.courses 1 = some courseA ∧
    lookupD st0.courses 2 = some courseB ∧
    ((update_enrollment st0 5 { course_id := some 2 }).2
        = .ok (applyEnrollmentUpdate enrE { course_id := some 2 }) ∧
     (update_enrollment st0 5 { course_id := some 2 }).1.courses = st0.courses ∧
     (applyEnrollmentUpdate enrE { course_id := some 2 }).course_id = 2 ∧
     (delete_enrollment (update_enrollment st0 5 { course_id := some 2 }).1 5).2
        = .ok () ∧
     lookupD (delete_enrollment
         (update_enrollment st0 5 { course_id := some 2 }).1 5).1.courses 2
        = some { courseB with
                 current_enrollment := max 0 (courseB.current_enrollment - 1) } ∧
     lookupD (delete_enrollment
         (update_enrollment st0 5 { course_id := some 2 }).1 5).1.courses 1
        = some courseA) :=
  ⟨by decide, by decide, by decide, by decide,
   enrollmentRetarget_then_delete st0 5 1 2 enrE courseA courseB
     (by decide) (by decide) (by decide) (by decide) (by decide)⟩
